import Mathlib

/-!
Verification of the pytest → Playwright Smart Reporter bridge
(`playwright_smart_reporter_python`): a shallow embedding of
`converter.py`, `bridge.py` and `plugin.py`, with theorems about the
claims of the specification.

Modelling conventions:
* JSON values (the payload of the raw pytest-json-report document) are the
  inductive type `J`.  Finite Python floats are modelled as exact
  rationals `ℚ` (all finite numeric examples in the claims are exactly
  representable); the infinite/NaN values `float()` produces on its
  special string spellings are the explicit `PyFloat` constructors, since
  they drive `_to_ms`'s uncaught `OverflowError` path.
* Python truthiness is `truthy`; Python's `int()` applied to a float is
  `truncTowardZero` (truncation toward zero).
* `json.dumps` and `str()` are standard-library functions, modelled by the
  executable serializers `dumps` / `pyStr`; the claims depend only on the
  shape and non-emptiness of their output, not on exact number formatting
  or escaping, which are abstracted.
* Filesystem state is a list of existing paths (for the orchestrator) or a
  `FileSys` record of pure predicates (for the renderer locator, whose
  paths are segment lists, deepest segment first).
* The wall clock (`datetime.utcnow().timestamp()`) and the subprocess
  outcome are explicit parameters.
-/

/-- A parsed JSON value, as produced by Python's `json.loads`: `null`,
booleans, numbers (modelled as exact rationals), strings, arrays and
objects (association lists, keys unique as in a Python dict). -/
inductive J where
  | null
  | bool (b : Bool)
  | num (q : ℚ)
  | str (s : String)
  | arr (xs : List J)
  | obj (fields : List (String × J))

/-- Python truthiness of a parsed JSON value: `None`, `False`, `0`, `""`,
`[]` and `{}` are falsy, everything else is truthy. -/
def truthy : J → Bool
  | .null => false
  | .bool b => b
  | .num q => decide (q ≠ 0)
  | .str s => s != ""
  | .arr xs => !xs.isEmpty
  | .obj fs => !fs.isEmpty

/-- Python `v == s` for a string literal `s`: true exactly when `v` is that
string (comparisons between different types are `False`, never an error). -/
def J.isStr (v : J) (s : String) : Bool :=
  match v with
  | .str t => t == s
  | _ => false

/-- Decimal digit character for `n % 10`. -/
def digitChar (n : ℕ) : Char := Char.ofNat (48 + n % 10)

/-- Fuel-driven decimal rendering of a natural number (most significant
digit first, accumulated onto `acc`); with `fuel := n` the fuel never runs
out. -/
def natDigitsAux : ℕ → ℕ → List Char → List Char
  | 0, n, acc => digitChar n :: acc
  | fuel+1, n, acc =>
      if n < 10 then digitChar n :: acc
      else natDigitsAux fuel (n / 10) (digitChar (n % 10) :: acc)

/-- Decimal rendering of a natural number. -/
def natRepr (n : ℕ) : String := String.mk (natDigitsAux n n [])

/-- Decimal rendering of an integer. -/
def intRepr (i : ℤ) : String :=
  if i < 0 then "-" ++ natRepr i.natAbs else natRepr i.natAbs

/-- Rendering of a rational: the model of Python's textual form of a
number.  (Python renders floats in decimal; the exact digits are
irrelevant to every claim, only non-emptiness is used.) -/
def ratRepr (q : ℚ) : String :=
  intRepr q.num ++ (if q.den = 1 then "" else "/" ++ natRepr q.den)

/-- JSON string escaping (quote and backslash; further escapes of Python's
`json.dumps` are abstracted away, no claim depends on them). -/
def escapeChar (c : Char) : String :=
  if c = '"' then "\\\"" else if c = '\\' then "\\\\" else String.singleton c

/-- Escape every character of a string. -/
def escapeStr (s : String) : String := String.join (s.data.map escapeChar)

mutual

/-- Model of Python's `json.dumps` on a parsed JSON value. -/
def dumps : J → String
  | .null => "null"
  | .bool b => if b then "true" else "false"
  | .num q => ratRepr q
  | .str s => "\"" ++ escapeStr s ++ "\""
  | .arr xs => "[" ++ dumpsList xs ++ "]"
  | .obj fs => "\x7b" ++ dumpsFields fs ++ "\x7d"

/-- Comma-separated serialization of an array's elements. -/
def dumpsList : List J → String
  | [] => ""
  | [x] => dumps x
  | x :: y :: xs => dumps x ++ ", " ++ dumpsList (y :: xs)

/-- Comma-separated serialization of an object's key/value pairs. -/
def dumpsFields : List (String × J) → String
  | [] => ""
  | [(k, v)] => "\"" ++ escapeStr k ++ "\": " ++ dumps v
  | (k, v) :: x :: xs =>
      "\"" ++ escapeStr k ++ "\": " ++ dumps v ++ ", " ++ dumpsFields (x :: xs)

end

/-- Model of Python's `str()` on a parsed JSON value (`str(None) = "None"`,
`str(True) = "True"`, …).  Containers are rendered through the JSON
serializer: Python's `repr` differs only in quoting, and no claim depends
on the exact text, only on non-emptiness. -/
def pyStr : J → String
  | .null => "None"
  | .bool b => if b then "True" else "False"
  | .num q => ratRepr q
  | .str s => s
  | .arr xs => "[" ++ dumpsList xs ++ "]"
  | .obj fs => "\x7b" ++ dumpsFields fs ++ "\x7d"

/-- Python's `int()` on a float value: truncation toward zero. -/
def truncTowardZero (q : ℚ) : ℤ := if q < 0 then ⌈q⌉ else ⌊q⌋

/-- Decimal value of a list of digit characters (`foldl`, most significant
first), as accumulated by Python's number parsing. -/
def digitsVal (cs : List Char) : ℕ :=
  cs.foldl (fun a c => a * 10 + (c.toNat - 48)) 0

/-- A Python float value as produced by `float()`: finite values are
exact rationals, and the non-finite results of the `inf`/`infinity`/
`nan` spellings are explicit, since they drive `_to_ms`'s uncaught-error
path.  (Raw JSON numeric fields are standard, finite JSON numbers.) -/
inductive PyFloat where
  | finite (q : ℚ)
  | inf
  | negInf
  | nan

/-- Negation of a Python float, for a leading `-` sign (the sign of a
NaN is irrelevant downstream). -/
def PyFloat.neg : PyFloat → PyFloat
  | .finite q => .finite (-q)
  | .inf => .negInf
  | .negInf => .inf
  | .nan => .nan

/-- Validation of the tail of a digit run: single underscores are
allowed strictly between digits (Python's numeric-literal underscore
rule: not leading, not trailing, not doubled, not adjacent to `.`);
returns the digits with the separators removed. -/
def digitsNoSepAux : List Char → Option (List Char)
  | [] => some []
  | '_' :: c :: rest =>
      if c.isDigit then (digitsNoSepAux rest).map (fun ds => c :: ds) else none
  | ['_'] => none
  | c :: rest =>
      if c.isDigit then (digitsNoSepAux rest).map (fun ds => c :: ds) else none

/-- Validation of a (possibly empty) digit group with underscore
separators: when non-empty it must start with a digit. -/
def digitsNoSep : List Char → Option (List Char)
  | [] => some []
  | c :: rest =>
      if c.isDigit then (digitsNoSepAux rest).map (fun ds => c :: ds) else none

/-- Mantissa of a finite Python float literal: `digits`, `digits.digits`,
`.digits` or `digits.` — at least one digit overall, underscore
separators allowed between digits. -/
def pyFloatMantissa (cs : List Char) : Option ℚ :=
  match cs.span (fun c => c != '.') with
  | (ip, rest) =>
    match rest with
    | [] =>
        match digitsNoSep ip with
        | some ds => if ds.isEmpty then none else some ((digitsVal ds : ℕ) : ℚ)
        | none => none
    | _ :: fp =>
        match digitsNoSep ip, digitsNoSep fp with
        | some ids, some fds =>
            if ids.isEmpty && fds.isEmpty then none
            else some (((digitsVal ids : ℕ) : ℚ) + ((digitsVal fds : ℕ) : ℚ) / 10 ^ fds.length)
        | _, _ => none

/-- Exponent part of a Python float literal: optional sign, then at
least one digit (underscore separators allowed). -/
def pyFloatExp (cs : List Char) : Option ℤ :=
  match cs with
  | '+' :: ds =>
      match digitsNoSep ds with
      | some es => if es.isEmpty then none else some ((digitsVal es : ℕ) : ℤ)
      | none => none
  | '-' :: ds =>
      match digitsNoSep ds with
      | some es => if es.isEmpty then none else some (-((digitsVal es : ℕ) : ℤ))
      | none => none
  | ds =>
      match digitsNoSep ds with
      | some es => if es.isEmpty then none else some ((digitsVal es : ℕ) : ℤ)
      | none => none

/-- Lower-cased characters, for the case-insensitive special
spellings. -/
def lowerChars (cs : List Char) : List Char := cs.map Char.toLower

/-- Unsigned body of a Python float string: the case-insensitive special
spellings `inf`/`infinity`/`nan`, or a finite mantissa with an optional
`e`/`E` exponent. -/
def pyFloatBody (cs : List Char) : Option PyFloat :=
  if lowerChars cs = ['i', 'n', 'f'] ∨
      lowerChars cs = ['i', 'n', 'f', 'i', 'n', 'i', 't', 'y'] then
    some PyFloat.inf
  else if lowerChars cs = ['n', 'a', 'n'] then some PyFloat.nan
  else
    match cs.span (fun c => c != 'e' && c != 'E') with
    | (mant, rest) =>
      match rest with
      | [] => (pyFloatMantissa mant).map PyFloat.finite
      | _ :: ex =>
        match pyFloatMantissa mant, pyFloatExp ex with
        | some m, some e => some (PyFloat.finite (m * 10 ^ e))
        | _, _ => none

/-- Signed body: an optional leading `+`/`-` (so `"-inf"` parses to
negative infinity). -/
def pyFloatSigned (cs : List Char) : Option PyFloat :=
  match cs with
  | '+' :: rest => pyFloatBody rest
  | '-' :: rest => (pyFloatBody rest).map PyFloat.neg
  | _ => pyFloatBody cs

/-- Strip leading and trailing whitespace, as Python's `float()` does. -/
def stripSpaces (cs : List Char) : List Char :=
  ((cs.dropWhile Char.isWhitespace).reverse.dropWhile Char.isWhitespace).reverse

/-- Model of Python's `float()` applied to a string: strip whitespace,
optional sign, then either a special spelling (`inf`, `infinity`, `nan`,
case-insensitive) or a finite decimal literal with optional exponent and
underscore separators; `none` when the call would raise `ValueError`. -/
def pyFloatOfString (s : String) : Option PyFloat :=
  pyFloatSigned (stripSpaces s.data)

/-- How `_to_ms` exits: the returned milliseconds, or the uncaught
`OverflowError` raised by `int()` on an infinite float — `except
(TypeError, ValueError)` does not catch `OverflowError`, so it
propagates out of `_to_ms`. -/
inductive ToMsResult where
  | ok (ms : ℤ)
  | overflowError

/-- Embedding of `converter._to_ms`, exit-faithful: `None` gives 0;
numbers and numeric strings are coerced with `float()`, multiplied by
1000 and truncated toward zero; a `TypeError`/`ValueError` from the
coercion or truncation (lists, dicts, non-numeric strings, and
`int(nan)`'s `ValueError`) is caught and gives 0; but on an infinite
parse (`"inf"`, `"-Infinity"`, …) `int(inf * 1000)` raises an uncaught
`OverflowError`.  `float(True) = 1.0` and `float(False) = 0.0` for
booleans. -/
def toMs : J → ToMsResult
  | .null => .ok 0
  | .bool b => .ok (truncTowardZero ((if b then 1 else 0) * 1000))
  | .num q => .ok (truncTowardZero (q * 1000))
  | .str s =>
      match pyFloatOfString s with
      | some (PyFloat.finite q) => .ok (truncTowardZero (q * 1000))
      | some PyFloat.inf => .overflowError
      | some PyFloat.negInf => .overflowError
      | some PyFloat.nan => .ok 0
      | none => .ok 0
  | .arr _ => .ok 0
  | .obj _ => .ok 0

/-- The milliseconds value carried into the canonical record by the
non-raising executions of `_to_ms`; on the `overflowError` path the
program raises out of the whole conversion and no canonical record is
produced, so the placeholder 0 here is never observed by a completing
run. -/
def toMsVal (j : J) : ℤ :=
  match toMs j with
  | .ok ms => ms
  | .overflowError => 0

/-- Embedding of `converter._status_from_outcome`: the raw outcome token is
compared (Python `==`) against the three known strings, everything else —
including `None` and non-strings — falls through to `"failed"`. -/
def statusFromOutcome (outcome : J) : String :=
  if outcome.isStr "passed" then "passed"
  else if outcome.isStr "failed" then "failed"
  else if outcome.isStr "skipped" then "skipped"
  else "failed"

/-- Embedding of `converter._playwright_outcome`: `"passed"` maps to
`"expected"`, `"skipped"` to `"skipped"`, everything else to
`"unexpected"`. -/
def playwrightOutcome (outcome : J) : String :=
  if outcome.isStr "passed" then "expected"
  else if outcome.isStr "skipped" then "skipped"
  else "unexpected"

/-- A raw pytest-json-report test record, per the raw input contract: an
optional `nodeid` string, arbitrary JSON under `outcome` / `duration` /
`keywords`, and the three phase sub-objects, each an optional JSON object
(`none` covers an absent or falsy phase value, which
`test.get(phase) or {}` replaces by the empty dict). -/
structure RawTest where
  nodeid : Option String
  outcome : J
  duration : J
  keywords : J
  setup : Option (List (String × J))
  call : Option (List (String × J))
  teardown : Option (List (String × J))

/-- The `longrepr` entry of a phase: `(test.get(phase) or {}).get("longrepr")`. -/
def phaseLongrepr (p : Option (List (String × J))) : Option J :=
  (p.getD []).lookup "longrepr"

/-- Embedding of the per-variant error extraction of
`converter._extract_error` applied to a (truthy) `longrepr` value: a
string is returned as-is; for a dict, `longrepr.get("message") or
json.dumps(longrepr)` returns the `message` value when it is truthy and
the serialization of the whole dict otherwise (also when `message` is
absent); anything else goes through `str()`. -/
def extractLongrepr : J → J
  | .str s => .str s
  | .obj fs =>
      match fs.lookup "message" with
      | some m => if truthy m then m else .str (dumps (.obj fs))
      | none => .str (dumps (.obj fs))
  | v => .str (pyStr v)

/-- The scanning loop of `converter._extract_error`: the first phase whose
`longrepr` is truthy wins; falsy or absent `longrepr` values are skipped. -/
def firstTruthyLongrepr : List (Option (List (String × J))) → Option J
  | [] => none
  | p :: ps =>
      match phaseLongrepr p with
      | some lr =>
          if truthy lr then some (extractLongrepr lr) else firstTruthyLongrepr ps
      | none => firstTruthyLongrepr ps

/-- Embedding of `converter._extract_error`: scan `call`, `setup`,
`teardown` in that order. -/
def extractError (t : RawTest) : Option J :=
  firstTruthyLongrepr [t.call, t.setup, t.teardown]

/-- Whether a phase carries a truthy `longrepr`. -/
def hasTruthyLongrepr (p : Option (List (String × J))) : Bool :=
  match phaseLongrepr p with
  | some lr => truthy lr
  | none => false

/-- Python `"::" in s` on the character list of `s`: scan for an
occurrence of two consecutive colons. -/
def containsDD : List Char → Bool
  | [] => false
  | [_] => false
  | c :: d :: rest => (c == ':' && d == ':') || containsDD (d :: rest)

/-- Python `s.split("::")` on the character list of `s`: leftmost-first,
non-overlapping; always at least one part. -/
def splitOnDD : List Char → List (List Char)
  | [] => [[]]
  | [c] => [[c]]
  | c :: d :: rest =>
      if c == ':' && d == ':' then [] :: splitOnDD rest
      else
        match splitOnDD (d :: rest) with
        | [] => [[c]]
        | p :: ps => (c :: p) :: ps

/-- Python `"::".join(parts)` on character lists. -/
def joinDD : List (List Char) → List Char
  | [] => []
  | [p] => p
  | p :: q :: ps => p ++ ':' :: ':' :: joinDD (q :: ps)

/-- Embedding of the nodeid parsing in `converter.convert_pytest_json`:
`if "::" in nodeid` then file is `parts[0]` and title is
`"::".join(parts[1:])`, else file is the sentinel `"unknown"` and title
the whole identifier.  (`split` never returns an empty list, so the inner
fallback is unreachable.) -/
def splitNodeid (nodeid : String) : String × String :=
  if containsDD nodeid.data then
    match splitOnDD nodeid.data with
    | p :: ps => (String.mk p, String.mk (joinDD ps))
    | [] => ("unknown", nodeid)
  else ("unknown", nodeid)

/-- The four always-empty attachment buckets of a canonical result. -/
structure Attachments where
  screenshots : List J
  videos : List J
  traces : List J
  custom : List J

/-- A canonical result record, the per-test output schema of
`convert_pytest_json`. -/
structure CanonResult where
  testId : String
  title : String
  file : String
  status : String
  duration : ℤ
  error : Option J
  retry : ℕ
  outcome : String
  expectedStatus : String
  steps : List J
  history : List J
  tags : List J
  attachments : Attachments

/-- Embedding of the per-test body of the loop in
`convert_pytest_json`: nodeid defaulting, identifier splitting, the two
outcome mappings, duration conversion, error extraction, and the fixed
constant fields. -/
def normalizeTest (t : RawTest) : CanonResult :=
  let nodeid := t.nodeid.getD "unknown::test"
  { testId := nodeid
    title := (splitNodeid nodeid).2
    file := (splitNodeid nodeid).1
    status := statusFromOutcome t.outcome
    duration := toMsVal t.duration
    error := extractError t
    retry := 0
    outcome := playwrightOutcome t.outcome
    expectedStatus := "passed"
    steps := []
    history := []
    tags := match t.keywords with | J.arr xs => xs | _ => []
    attachments := { screenshots := [], videos := [], traces := [], custom := [] } }

/-- Outcome of the renderer subprocess (`subprocess.run`): either it
completed with an exit status and captured streams, or launching/running
it raised (e.g. `FileNotFoundError` when `node` is missing). -/
inductive SubprocOutcome where
  | completed (returncode : ℤ) (stdout stderr : String)
  | raised (msg : String)

/-- How `SmartReporterBridge.generate_report` exits: normally, with the
`RuntimeError` it raises itself on a non-zero exit status, or with an
exception propagated from the subprocess invocation. -/
inductive ReportResult where
  | ok
  | renderError (msg : String)
  | propagated (msg : String)

/-- The transient invocation-unit path: `project_root / ".generate-report.js"`. -/
def scriptPath (projectRoot : String) : String :=
  projectRoot ++ "/.generate-report.js"

/-- The default intermediate data path:
`project_root / ".smart-reporter-data.json"`. -/
def defaultDataJsonPath (projectRoot : String) : String :=
  projectRoot ++ "/.smart-reporter-data.json"

/-- `unlink` guarded by an existence check: removes a path from the
filesystem model. -/
def removePath (p : String) (fs : List String) : List String :=
  fs.filter (fun x => x != p)

/-- Embedding of the orchestration part of
`SmartReporterBridge.generate_report` (lines 134-165 of `bridge.py`), as a
transition on a filesystem modelled by the list of existing paths: write
the intermediate data file, write the transient script, run the
subprocess inside `try`, raise a `RuntimeError` embedding the captured
streams when the exit status is non-zero, and in all cases execute the
`finally` block, which unlinks the script if it exists. -/
def generateReport (projectRoot : String) (dataJsonPath : Option String)
    (sub : SubprocOutcome) (fs0 : List String) : ReportResult × List String :=
  let dataPath := dataJsonPath.getD (defaultDataJsonPath projectRoot)
  let fs1 := dataPath :: fs0
  let sp := scriptPath projectRoot
  let fs2 := sp :: fs1
  let res : ReportResult :=
    match sub with
    | .raised m => .propagated m
    | .completed rc stdout stderr =>
        if rc ≠ 0 then
          .renderError ("Report generation failed:\n" ++ (if stderr = "" then stdout else stderr))
        else .ok
  (res, removePath sp fs2)

/-- The filesystem view used by the renderer locator: which paths are
existing files, and for each directory the `name` field of a
`package.json` inside it when that file exists and parses (`none` covers
a missing file, a parse error — `_is_valid_root` swallows exceptions —
and a missing name).  Paths are segment lists, deepest segment first. -/
structure FileSys where
  isFile : List String → Bool
  pkgName : List String → Option String

/-- `Path.parent`; the parent of the root is the root itself. -/
def parentDir : List String → List String
  | [] => []
  | _ :: rest => rest

/-- `dir / seg`. -/
def childPath (dir : List String) (seg : String) : List String := seg :: dir

/-- The sentinel package name looked for by `_is_valid_root`. -/
def sentinelPkgName : String := "playwright-smart-reporter"

/-- Embedding of `bridge._is_valid_root`: the directory holds a
`package.json` whose `name` is the sentinel. -/
def isValidRoot (fs : FileSys) (p : List String) : Bool :=
  fs.pkgName p == some sentinelPkgName

/-- The cwd walk of `bridge._find_monorepo_root`: `for _ in range(6)`
checks the current directory, then walks to the parent. -/
def walkUp (fs : FileSys) : ℕ → List String → Option (List String)
  | 0, _ => none
  | fuel+1, cur =>
      if isValidRoot fs cur then some cur else walkUp fs fuel (parentDir cur)

/-- Embedding of `bridge._find_monorepo_root`: first the static anchor
three parents above `bridge.py`, then the bounded upward walk from the
current working directory. -/
def findMonorepoRoot (fs : FileSys) (bridgeFile cwd : List String) : Option (List String) :=
  let candidate := parentDir (parentDir (parentDir bridgeFile))
  if isValidRoot fs candidate then some candidate
  else walkUp fs 6 cwd

/-- Whether a directory contains the renderer entry asset
`generators/html-generator.js`. -/
def htmlGeneratorAt (fs : FileSys) (dir : List String) : Bool :=
  fs.isFile (childPath (childPath dir "generators") "html-generator.js")

/-- Result of `bridge._get_dist_root`: a resolved directory, or the
`RuntimeError` message. -/
inductive DistRootResult where
  | found (dir : List String)
  | notFound (msg : String)

/-- The remediation message of `_get_dist_root`, distinguishing a corrupt
pip install from a missing build step. -/
def distRootErrMsg : String :=
  "Cannot find the compiled Smart Reporter JS files.\n" ++
  "If installed via pip, the package may be corrupt - try reinstalling.\n" ++
  "If developing locally, run 'npm run build' from the repo root."

/-- Embedding of `bridge._get_dist_root`: the bundled directory
`_bundled_dist` alongside `bridge.py` first; otherwise the `dist`
directory of the monorepo root found by `_find_monorepo_root`; a
candidate is accepted only if it contains the entry asset; otherwise the
deterministic error. -/
def getDistRoot (fs : FileSys) (bridgeFile cwd : List String) : DistRootResult :=
  let bundled := childPath (parentDir bridgeFile) "_bundled_dist"
  if htmlGeneratorAt fs bundled then .found bundled
  else
    match findMonorepoRoot fs bridgeFile cwd with
    | some monorepo =>
        if htmlGeneratorAt fs (childPath monorepo "dist") then
          .found (childPath monorepo "dist")
        else .notFound distRootErrMsg
    | none => .notFound distRootErrMsg

/-- Environment of one `pytest_sessionfinish` invocation: whether the raw
report exists at the fixed path `.pytest-report.json`, and the outcomes
of bridge construction (`SmartReporterBridge()`, which resolves the dist
root and may raise) and of `generate_report` (conversion plus rendering,
either of which may raise).  Errors are the exception messages. -/
structure HookEnv where
  reportExists : Bool
  bridgeInit : Except String Unit
  generate : Except String Unit

/-- The non-fatal notice printed when the raw report file is absent. -/
def skipNotice : String :=
  "\n⚠️  pytest-json-report file not found, skipping Smart Report"

/-- The line printed when report generation raised. -/
def failLine (e : String) : String :=
  "\n❌ Failed to generate Smart Report: " ++ e

/-- The line printed on success. -/
def successLine (outputPath : String) : String :=
  "\n📊 Smart Report generated: " ++ outputPath

/-- Embedding of `SmartReporterPlugin.pytest_sessionfinish`: the value is
the printed log; an `Except.error` would model an exception escaping to
the test session — the hook never produces one: a missing report file is
a printed notice, and the `try`/`except Exception` around bridge
construction and report generation turns any failure into a printed
line. -/
def sessionFinish (env : HookEnv) (outputPath : String) : Except String (List String) :=
  if env.reportExists = false then Except.ok [skipNotice]
  else
    match env.bridgeInit with
    | .error e => .ok [failLine e]
    | .ok _ =>
        match env.generate with
        | .error e => .ok [failLine e]
        | .ok _ => .ok [successLine outputPath]

/-- A concrete raw record with a string error in `call` and another in
`setup`, used to instantiate the error-extraction theorems. -/
def sampleCallSetup : RawTest :=
  { nodeid := some "tests/test_a.py::test_x"
    outcome := J.str "failed"
    duration := J.null
    keywords := J.null
    setup := some [("longrepr", J.str "fixture error")]
    call := some [("longrepr", J.str "AssertionError: bad value")]
    teardown := none }

/-- A concrete raw record whose `call` phase has a dict `longrepr` with a
truthy non-string `message` value. -/
def sampleMsgNum : RawTest :=
  { nodeid := none
    outcome := J.null
    duration := J.null
    keywords := J.null
    setup := none
    call := some [("longrepr", J.obj [("message", J.num 5)])]
    teardown := none }

/-- A filesystem in which only the bundled dist next to `bridge.py`
(taken at `["bridge.py", "pkg", "python", "repo"]`) holds the renderer
entry asset. -/
def sampleBundledFs : FileSys :=
  { isFile := fun p =>
      p == ["html-generator.js", "generators", "_bundled_dist", "pkg", "python", "repo"]
    pkgName := fun _ => none }

/-- A filesystem refuting claim C8's walk-from-the-bridge wording: the
sentinel `package.json`, with an asset-bearing `dist`, sits two levels
above `bridge.py` (at `["python", "repo"]`), the bundled directory is
absent, and the current working directory is unrelated. -/
def sampleAnchorMissFs : FileSys :=
  { isFile := fun p => p == ["html-generator.js", "generators", "dist", "python", "repo"]
    pkgName := fun p => if p == ["python", "repo"] then some sentinelPkgName else none }

/-- Modelled from claim C8's words (not from the source): a monorepo
root found "by upward walk (from the bridge's location, then from the
current working directory, bounded by a small fixed level ceiling)" —
with the same six-level ceiling the code uses for its cwd walk. -/
def findMonorepoRootClaimed (fs : FileSys) (bridgeFile cwd : List String) :
    Option (List String) :=
  match walkUp fs 6 (parentDir bridgeFile) with
  | some r => some r
  | none => walkUp fs 6 cwd

/-- Modelled from claim C8's words (not from the source): try the
candidates in fixed priority order — the bundled directory alongside the
bridge code, then the `dist` of the walk-found monorepo root —
"returning the first directory containing the expected entry asset", and
fail deterministically with the renderer-not-found error otherwise. -/
def getDistRootClaimed (fs : FileSys) (bridgeFile cwd : List String) : DistRootResult :=
  if htmlGeneratorAt fs (childPath (parentDir bridgeFile) "_bundled_dist") then
    DistRootResult.found (childPath (parentDir bridgeFile) "_bundled_dist")
  else
    match findMonorepoRootClaimed fs bridgeFile cwd with
    | some r =>
        if htmlGeneratorAt fs (childPath r "dist") then
          DistRootResult.found (childPath r "dist")
        else DistRootResult.notFound distRootErrMsg
    | none => DistRootResult.notFound distRootErrMsg

theorem natDigitsAux_ne_nil (fuel : ℕ) :
    ∀ (n : ℕ) (acc : List Char), natDigitsAux fuel n acc ≠ [] := by
  induction fuel with
  | zero => intro n acc; simp [natDigitsAux]
  | succ k ih =>
      intro n acc
      rw [natDigitsAux]
      split
      · simp
      · exact ih _ _

theorem natRepr_length_pos (n : ℕ) : 0 < (natRepr n).length := by
  rw [natRepr, String.length_mk]
  exact List.length_pos.mpr (natDigitsAux_ne_nil n n [])

theorem ne_empty_of_length_pos {s : String} (h : 0 < s.length) : s ≠ "" := by
  intro hc
  rw [hc] at h
  exact Nat.lt_irrefl 0 h

theorem intRepr_length_pos (i : ℤ) : 0 < (intRepr i).length := by
  rw [intRepr]
  split
  · rw [String.length_append]
    have := natRepr_length_pos i.natAbs
    omega
  · exact natRepr_length_pos _

theorem ratRepr_length_pos (q : ℚ) : 0 < (ratRepr q).length := by
  rw [ratRepr, String.length_append]
  have := intRepr_length_pos q.num
  omega

theorem dumps_obj_length_pos (fs : List (String × J)) : 0 < (dumps (J.obj fs)).length := by
  simp only [dumps, String.length_append]
  have : ("\x7b" : String).length = 1 := rfl
  omega

theorem bne_empty_of_ne {s : String} (h : s ≠ "") : (s != "") = true :=
  bne_iff_ne.mpr h

theorem truthy_of_length_pos {s : String} (h : 0 < s.length) :
    truthy (J.str s) = true := by
  simp only [truthy]
  exact bne_empty_of_ne (ne_empty_of_length_pos h)

theorem truthy_extractLongrepr (lr : J) (h : truthy lr = true) :
    truthy (extractLongrepr lr) = true := by
  cases lr with
  | null => simp [truthy] at h
  | bool b =>
      cases b
      · simp [truthy] at h
      · exact truthy_of_length_pos (by rw [show pyStr (J.bool true) = "True" from rfl]; decide)
  | num q =>
      exact truthy_of_length_pos (by rw [show pyStr (J.num q) = ratRepr q from rfl]; exact ratRepr_length_pos q)
  | str s => exact h
  | arr xs =>
      refine truthy_of_length_pos ?_
      rw [show pyStr (J.arr xs) = "[" ++ dumpsList xs ++ "]" from rfl]
      rw [String.length_append, String.length_append]
      have : ("[" : String).length = 1 := rfl
      omega
  | obj fs =>
      simp only [extractLongrepr]
      cases hm : fs.lookup "message" with
      | none => exact truthy_of_length_pos (dumps_obj_length_pos fs)
      | some m =>
          show truthy (if truthy m = true then m else J.str (dumps (J.obj fs))) = true
          by_cases ht : truthy m = true
          · rw [if_pos ht]; exact ht
          · rw [if_neg ht]; exact truthy_of_length_pos (dumps_obj_length_pos fs)

theorem firstTruthyLongrepr_none_or_truthy (ps : List (Option (List (String × J)))) :
    firstTruthyLongrepr ps = none ∨
      ∃ v, firstTruthyLongrepr ps = some v ∧ truthy v = true := by
  induction ps with
  | nil => exact Or.inl rfl
  | cons p ps ih =>
      cases hp : phaseLongrepr p with
      | none => rw [firstTruthyLongrepr, hp]; exact ih
      | some lr =>
          by_cases ht : truthy lr = true
          · right
            refine ⟨extractLongrepr lr, ?_, truthy_extractLongrepr lr ht⟩
            rw [firstTruthyLongrepr, hp]
            show (if truthy lr = true then some (extractLongrepr lr)
              else firstTruthyLongrepr ps) = some (extractLongrepr lr)
            rw [if_pos ht]
          · have he : firstTruthyLongrepr (p :: ps) = firstTruthyLongrepr ps := by
              rw [firstTruthyLongrepr, hp]
              show (if truthy lr = true then some (extractLongrepr lr)
                else firstTruthyLongrepr ps) = firstTruthyLongrepr ps
              rw [if_neg ht]
            rw [he]
            exact ih

theorem isStr_eq_true_iff (v : J) (s : String) : v.isStr s = true ↔ v = J.str s := by
  cases v <;> simp [J.isStr]

theorem splitOnDD_ne_nil (cs : List Char) : splitOnDD cs ≠ [] := by
  match cs with
  | [] => simp [splitOnDD]
  | [c] => simp [splitOnDD]
  | c :: d :: rest =>
      rw [splitOnDD]
      split
      · simp
      · cases splitOnDD (d :: rest) <;> simp

theorem joinDD_splitOnDD_aux (n : ℕ) :
    ∀ cs : List Char, cs.length ≤ n → joinDD (splitOnDD cs) = cs := by
  induction n with
  | zero =>
      intro cs h
      have : cs = [] := List.length_eq_zero.mp (Nat.le_zero.mp h)
      subst this; rfl
  | succ k ih =>
      intro cs h
      match cs with
      | [] => rfl
      | [c] => rfl
      | c :: d :: rest =>
          rw [splitOnDD]
          by_cases hcd : (c == ':' && d == ':') = true
          · rw [if_pos hcd]
            have hc : c = ':' := by
              have := (Bool.and_eq_true _ _).mp hcd
              exact beq_iff_eq.mp this.1
            have hd : d = ':' := by
              have := (Bool.and_eq_true _ _).mp hcd
              exact beq_iff_eq.mp this.2
            subst hc; subst hd
            cases hs : splitOnDD rest with
            | nil => exact absurd hs (splitOnDD_ne_nil rest)
            | cons p ps =>
                have hr : joinDD (splitOnDD rest) = rest := by
                  apply ih
                  simp only [List.length_cons] at h
                  omega
                rw [hs] at hr
                rw [joinDD, hr]
                rfl
          · rw [if_neg hcd]
            have hr : joinDD (splitOnDD (d :: rest)) = d :: rest := by
              apply ih
              simp only [List.length_cons] at h ⊢
              omega
            cases hs : splitOnDD (d :: rest) with
            | nil => exact absurd hs (splitOnDD_ne_nil _)
            | cons p ps =>
                rw [hs] at hr
                cases ps with
                | nil =>
                    rw [joinDD] at hr
                    rw [joinDD, hr]
                | cons p2 ps2 =>
                    rw [joinDD] at hr
                    rw [joinDD, List.cons_append, hr]

theorem joinDD_splitOnDD (cs : List Char) : joinDD (splitOnDD cs) = cs :=
  joinDD_splitOnDD_aux cs.length cs (Nat.le_refl _)

theorem walkUp_isValidRoot (fs : FileSys) (fuel : ℕ) :
    ∀ cur r, walkUp fs fuel cur = some r → isValidRoot fs r = true := by
  induction fuel with
  | zero => intro cur r h; simp [walkUp] at h
  | succ k ih =>
      intro cur r h
      rw [walkUp] at h
      by_cases hv : isValidRoot fs cur = true
      · rw [if_pos hv] at h
        cases h
        exact hv
      · rw [if_neg hv] at h
        exact ih _ _ h

theorem firstTruthy_cons_skip (p : Option (List (String × J)))
    (ps : List (Option (List (String × J)))) (h : hasTruthyLongrepr p = false) :
    firstTruthyLongrepr (p :: ps) = firstTruthyLongrepr ps := by
  rw [firstTruthyLongrepr]
  cases hp : phaseLongrepr p with
  | none => rfl
  | some lr =>
      have h2 : truthy lr = false := by
        rw [hasTruthyLongrepr, hp] at h
        exact h
      show (if truthy lr = true then some (extractLongrepr lr)
        else firstTruthyLongrepr ps) = firstTruthyLongrepr ps
      rw [if_neg (by rw [h2]; exact Bool.false_ne_true)]

theorem firstTruthy_cons_hit (p : Option (List (String × J)))
    (ps : List (Option (List (String × J)))) (lr : J)
    (hp : phaseLongrepr p = some lr) (ht : truthy lr = true) :
    firstTruthyLongrepr (p :: ps) = some (extractLongrepr lr) := by
  rw [firstTruthyLongrepr, hp]
  show (if truthy lr = true then some (extractLongrepr lr)
    else firstTruthyLongrepr ps) = some (extractLongrepr lr)
  rw [if_pos ht]

/-- C1 counterexample: the claim asserts a non-negative result and that
the conversion never raises, for every input; but `_to_ms` applies no
clamping — the numeric input `-1` (seconds) yields `-1000`
milliseconds — and `_to_ms("inf")` raises: `float("inf")` succeeds, and
`int(inf * 1000)` raises `OverflowError`, which
`except (TypeError, ValueError)` does not catch. -/
theorem C1_counterexample :
    toMs (J.num (-1)) = ToMsResult.ok (-1000) ∧
    ¬ (0 ≤ (-1000 : ℤ)) ∧
    toMs (J.str "inf") = ToMsResult.overflowError := by
  refine ⟨?_, by decide, rfl⟩
  show ToMsResult.ok (truncTowardZero ((-1) * 1000)) = ToMsResult.ok (-1000)
  rw [truncTowardZero, if_pos (by norm_num),
    show ((-1 : ℚ) * 1000) = ((-1000 : ℤ) : ℚ) by norm_num, Int.ceil_intCast]

/-- C1 (amended): for every raw duration input the conversion either
returns an integer or raises the one uncaught error: absent (`None`),
non-numeric-string, list/dict and NaN-spelling input yields `0` (those
are the caught `TypeError`/`ValueError` paths); numeric input — a number
or a string parsing as a finite float, underscore separators included —
is coerced to float seconds, multiplied by 1000 and truncated toward
zero (`"2.5"` yields `2500`, `"1_5"` yields `15000`), non-negative
whenever the value is non-negative but negative for negative input; and
a string spelling an infinite float raises an uncaught `OverflowError`
instead of returning (cf. the counterexample). -/
theorem C1_amended_duration (q : ℚ) (s : String) (xs : List J) (fs : List (String × J)) :
    toMs J.null = ToMsResult.ok 0 ∧
    toMs (J.num q) = ToMsResult.ok (truncTowardZero (q * 1000)) ∧
    (0 ≤ q → ∀ ms, toMs (J.num q) = ToMsResult.ok ms → 0 ≤ ms) ∧
    (pyFloatOfString s = none → toMs (J.str s) = ToMsResult.ok 0) ∧
    (∀ r, pyFloatOfString s = some (PyFloat.finite r) →
      toMs (J.str s) = ToMsResult.ok (truncTowardZero (r * 1000))) ∧
    (pyFloatOfString s = some PyFloat.inf ∨ pyFloatOfString s = some PyFloat.negInf →
      toMs (J.str s) = ToMsResult.overflowError) ∧
    (pyFloatOfString s = some PyFloat.nan → toMs (J.str s) = ToMsResult.ok 0) ∧
    toMs (J.str "2.5") = ToMsResult.ok 2500 ∧
    toMs (J.str "1_5") = ToMsResult.ok 15000 ∧
    toMs (J.str "bad") = ToMsResult.ok 0 ∧
    toMs (J.arr xs) = ToMsResult.ok 0 ∧
    toMs (J.obj fs) = ToMsResult.ok 0 := by
  refine ⟨rfl, rfl, ?_, ?_, ?_, ?_, ?_, ?_, ?_, rfl, rfl, rfl⟩
  · intro hq ms hms
    have h2 : ToMsResult.ok (truncTowardZero (q * 1000)) = ToMsResult.ok ms := hms
    have h3 : truncTowardZero (q * 1000) = ms := by injection h2
    rw [← h3]
    have h4 : (0 : ℚ) ≤ q * 1000 := by positivity
    rw [truncTowardZero, if_neg (by linarith)]
    exact Int.le_floor.mpr (by exact_mod_cast h4)
  · intro hn
    show (match pyFloatOfString s with
      | some (PyFloat.finite q) => ToMsResult.ok (truncTowardZero (q * 1000))
      | some PyFloat.inf => ToMsResult.overflowError
      | some PyFloat.negInf => ToMsResult.overflowError
      | some PyFloat.nan => ToMsResult.ok 0
      | none => ToMsResult.ok 0) = ToMsResult.ok 0
    rw [hn]
  · intro r hr
    show (match pyFloatOfString s with
      | some (PyFloat.finite q) => ToMsResult.ok (truncTowardZero (q * 1000))
      | some PyFloat.inf => ToMsResult.overflowError
      | some PyFloat.negInf => ToMsResult.overflowError
      | some PyFloat.nan => ToMsResult.ok 0
      | none => ToMsResult.ok 0) = ToMsResult.ok (truncTowardZero (r * 1000))
    rw [hr]
  · intro hi
    show (match pyFloatOfString s with
      | some (PyFloat.finite q) => ToMsResult.ok (truncTowardZero (q * 1000))
      | some PyFloat.inf => ToMsResult.overflowError
      | some PyFloat.negInf => ToMsResult.overflowError
      | some PyFloat.nan => ToMsResult.ok 0
      | none => ToMsResult.ok 0) = ToMsResult.overflowError
    cases hi with
    | inl h => rw [h]
    | inr h => rw [h]
  · intro hn
    show (match pyFloatOfString s with
      | some (PyFloat.finite q) => ToMsResult.ok (truncTowardZero (q * 1000))
      | some PyFloat.inf => ToMsResult.overflowError
      | some PyFloat.negInf => ToMsResult.overflowError
      | some PyFloat.nan => ToMsResult.ok 0
      | none => ToMsResult.ok 0) = ToMsResult.ok 0
    rw [hn]
  · have hp : pyFloatOfString "2.5" =
        some (PyFloat.finite (((2 : ℕ) : ℚ) + ((5 : ℕ) : ℚ) / 10 ^ (1 : ℕ))) := rfl
    show (match pyFloatOfString "2.5" with
      | some (PyFloat.finite q) => ToMsResult.ok (truncTowardZero (q * 1000))
      | some PyFloat.inf => ToMsResult.overflowError
      | some PyFloat.negInf => ToMsResult.overflowError
      | some PyFloat.nan => ToMsResult.ok 0
      | none => ToMsResult.ok 0) = ToMsResult.ok 2500
    rw [hp]
    show ToMsResult.ok
        (truncTowardZero ((((2 : ℕ) : ℚ) + ((5 : ℕ) : ℚ) / 10 ^ (1 : ℕ)) * 1000)) =
      ToMsResult.ok 2500
    have hv : truncTowardZero ((((2 : ℕ) : ℚ) + ((5 : ℕ) : ℚ) / 10 ^ (1 : ℕ)) * 1000) = 2500 := by
      norm_num [truncTowardZero]
    rw [hv]
  · have hp : pyFloatOfString "1_5" = some (PyFloat.finite ((15 : ℕ) : ℚ)) := rfl
    show (match pyFloatOfString "1_5" with
      | some (PyFloat.finite q) => ToMsResult.ok (truncTowardZero (q * 1000))
      | some PyFloat.inf => ToMsResult.overflowError
      | some PyFloat.negInf => ToMsResult.overflowError
      | some PyFloat.nan => ToMsResult.ok 0
      | none => ToMsResult.ok 0) = ToMsResult.ok 15000
    rw [hp]
    show ToMsResult.ok (truncTowardZero (((15 : ℕ) : ℚ) * 1000)) = ToMsResult.ok 15000
    have hv : truncTowardZero (((15 : ℕ) : ℚ) * 1000) = 15000 := by
      norm_num [truncTowardZero]
    rw [hv]

/-- C1 witness: the amended theorem applied at the non-negative numeric
input `1`, the non-numeric string `"bad"`, and the infinite spelling
`"inf"`. -/
theorem C1_duration_witness :
    0 ≤ truncTowardZero ((1 : ℚ) * 1000) ∧
    toMs (J.str "bad") = ToMsResult.ok 0 ∧
    toMs (J.str "inf") = ToMsResult.overflowError :=
  ⟨(C1_amended_duration 1 "bad" [] []).2.2.1 (by decide)
      (truncTowardZero ((1 : ℚ) * 1000)) rfl,
   (C1_amended_duration 1 "bad" [] []).2.2.2.1 rfl,
   (C1_amended_duration 1 "inf" [] []).2.2.2.2.2.1 (Or.inl rfl)⟩

/-- C2 (confirmed): both outcome mappings are total and follow their
mapping tables exactly — status: `"passed"`/`"failed"`/`"skipped"` map to
themselves and every other raw token (including `None` and non-strings)
maps to `"failed"`; outcome: `"passed"` maps to `"expected"`,
`"skipped"` to `"skipped"`, everything else to `"unexpected"`.  Each is
computed from the raw outcome token alone (the last two conjuncts wire
both canonical fields independently to `t.outcome`; neither definition
refers to the other). -/
theorem C2_outcome_mappings (o : J) (t : RawTest) :
    statusFromOutcome (J.str "passed") = "passed" ∧
    statusFromOutcome (J.str "failed") = "failed" ∧
    statusFromOutcome (J.str "skipped") = "skipped" ∧
    statusFromOutcome J.null = "failed" ∧
    (o ≠ J.str "passed" → o ≠ J.str "failed" → o ≠ J.str "skipped" →
      statusFromOutcome o = "failed") ∧
    playwrightOutcome (J.str "passed") = "expected" ∧
    playwrightOutcome (J.str "skipped") = "skipped" ∧
    playwrightOutcome J.null = "unexpected" ∧
    (o ≠ J.str "passed" → o ≠ J.str "skipped" → playwrightOutcome o = "unexpected") ∧
    (normalizeTest t).status = statusFromOutcome t.outcome ∧
    (normalizeTest t).outcome = playwrightOutcome t.outcome := by
  refine ⟨rfl, rfl, rfl, rfl, ?_, rfl, rfl, rfl, ?_, rfl, rfl⟩
  · intro h1 h2 h3
    have e1 : o.isStr "passed" = false := by
      rw [Bool.eq_false_iff]
      exact fun hc => h1 ((isStr_eq_true_iff o _).mp hc)
    have e2 : o.isStr "failed" = false := by
      rw [Bool.eq_false_iff]
      exact fun hc => h2 ((isStr_eq_true_iff o _).mp hc)
    have e3 : o.isStr "skipped" = false := by
      rw [Bool.eq_false_iff]
      exact fun hc => h3 ((isStr_eq_true_iff o _).mp hc)
    simp [statusFromOutcome, e1, e2, e3]
  · intro h1 h2
    have e1 : o.isStr "passed" = false := by
      rw [Bool.eq_false_iff]
      exact fun hc => h1 ((isStr_eq_true_iff o _).mp hc)
    have e2 : o.isStr "skipped" = false := by
      rw [Bool.eq_false_iff]
      exact fun hc => h2 ((isStr_eq_true_iff o _).mp hc)
    simp [playwrightOutcome, e1, e2]

/-- C2 witness: the fall-through rows of both tables at the absent token
`None`. -/
theorem C2_outcome_mappings_witness :
    statusFromOutcome J.null = "failed" ∧ playwrightOutcome J.null = "unexpected" :=
  ⟨(C2_outcome_mappings J.null sampleCallSetup).2.2.2.2.1
      (fun h => J.noConfusion h) (fun h => J.noConfusion h) (fun h => J.noConfusion h),
   (C2_outcome_mappings J.null sampleCallSetup).2.2.2.2.2.2.2.2.1
      (fun h => J.noConfusion h) (fun h => J.noConfusion h)⟩

/-- C5 (confirmed): identifier splitting — when the raw identifier
contains `"::"`, the file is the first split segment and the title is the
remaining segments rejoined with `"::"` (the rejoined conjunct
`nodeid.data = joinDD (p :: ps)` certifies that the parts are a genuine
decomposition of the identifier); with no delimiter the file is the
sentinel `"unknown"` and the title the whole identifier; `testId` is the
unmodified raw identifier (after the absent-nodeid default). -/
theorem C5_identifier_splitting (t : RawTest) (nodeid : String) :
    splitNodeid "tests/test_login.py::TestLogin::test_valid_credentials" =
      ("tests/test_login.py", "TestLogin::test_valid_credentials") ∧
    (containsDD nodeid.data = false → splitNodeid nodeid = ("unknown", nodeid)) ∧
    (containsDD nodeid.data = true →
      ∀ p ps, splitOnDD nodeid.data = p :: ps →
        splitNodeid nodeid = (String.mk p, String.mk (joinDD ps)) ∧
        nodeid.data = joinDD (p :: ps)) ∧
    (normalizeTest t).testId = t.nodeid.getD "unknown::test" ∧
    (normalizeTest t).file = (splitNodeid (t.nodeid.getD "unknown::test")).1 ∧
    (normalizeTest t).title = (splitNodeid (t.nodeid.getD "unknown::test")).2 := by
  refine ⟨by decide, ?_, ?_, rfl, rfl, rfl⟩
  · intro h
    simp [splitNodeid, h]
  · intro h p ps hs
    refine ⟨by simp [splitNodeid, h, hs], ?_⟩
    have hj := joinDD_splitOnDD nodeid.data
    rw [hs] at hj
    exact hj.symm

/-- C5 witness: the theorem applied to the delimiter-free identifier
`"abc"` and to the worked example. -/
theorem C5_identifier_witness :
    splitNodeid "abc" = ("unknown", "abc") ∧
    splitNodeid "tests/test_login.py::TestLogin::test_valid_credentials" =
      ("tests/test_login.py", "TestLogin::test_valid_credentials") :=
  ⟨(C5_identifier_splitting sampleCallSetup "abc").2.1 (by decide),
   (C5_identifier_splitting sampleCallSetup "abc").1⟩

/-- C3 (confirmed): error extraction scans `call`, `setup`, `teardown` in
that fixed order and uses only the first phase carrying a non-empty
(truthy) error representation — later phases are never consulted or
merged; a string error is returned as-is; a mapping error yields its
`message` field when it carries one (non-empty, per the claim's own
"non-empty error representation" reading — the empty/falsy-message case
is the subject of claim C10) and otherwise the serialization of the
whole mapping; any other value is converted to a display string; with no
error in any phase the result is `none`, not an empty string. -/
theorem C3_error_extraction (t : RawTest) (s : String) (fs : List (String × J)) :
    (∀ lr, phaseLongrepr t.call = some lr → truthy lr = true →
      extractError t = some (extractLongrepr lr)) ∧
    (hasTruthyLongrepr t.call = false →
      ∀ lr, phaseLongrepr t.setup = some lr → truthy lr = true →
        extractError t = some (extractLongrepr lr)) ∧
    (hasTruthyLongrepr t.call = false → hasTruthyLongrepr t.setup = false →
      ∀ lr, phaseLongrepr t.teardown = some lr → truthy lr = true →
        extractError t = some (extractLongrepr lr)) ∧
    (hasTruthyLongrepr t.call = false → hasTruthyLongrepr t.setup = false →
      hasTruthyLongrepr t.teardown = false → extractError t = none) ∧
    extractLongrepr (J.str s) = J.str s ∧
    (∀ m, fs.lookup "message" = some m → truthy m = true →
      extractLongrepr (J.obj fs) = m) ∧
    (fs.lookup "message" = none →
      extractLongrepr (J.obj fs) = J.str (dumps (J.obj fs))) ∧
    (∀ m, fs.lookup "message" = some m → truthy m = false →
      extractLongrepr (J.obj fs) = J.str (dumps (J.obj fs))) ∧
    (∀ q, extractLongrepr (J.num q) = J.str (pyStr (J.num q))) ∧
    (∀ b, extractLongrepr (J.bool b) = J.str (pyStr (J.bool b))) ∧
    (∀ xs, extractLongrepr (J.arr xs) = J.str (pyStr (J.arr xs))) := by
  refine ⟨?_, ?_, ?_, ?_, rfl, ?_, ?_, ?_, fun q => rfl, fun b => rfl, fun xs => rfl⟩
  · intro lr hp ht
    exact firstTruthy_cons_hit _ _ lr hp ht
  · intro hc lr hp ht
    rw [extractError, firstTruthy_cons_skip _ _ hc]
    exact firstTruthy_cons_hit _ _ lr hp ht
  · intro hc hs2 lr hp ht
    rw [extractError, firstTruthy_cons_skip _ _ hc, firstTruthy_cons_skip _ _ hs2]
    exact firstTruthy_cons_hit _ _ lr hp ht
  · intro hc hs2 ht
    rw [extractError, firstTruthy_cons_skip _ _ hc, firstTruthy_cons_skip _ _ hs2,
      firstTruthy_cons_skip _ _ ht]
    rfl
  · intro m hm ht
    show (match fs.lookup "message" with
      | some m => if truthy m = true then m else J.str (dumps (J.obj fs))
      | none => J.str (dumps (J.obj fs))) = m
    rw [hm]
    show (if truthy m = true then m else J.str (dumps (J.obj fs))) = m
    rw [if_pos ht]
  · intro hm
    show (match fs.lookup "message" with
      | some m => if truthy m = true then m else J.str (dumps (J.obj fs))
      | none => J.str (dumps (J.obj fs))) = J.str (dumps (J.obj fs))
    rw [hm]
  · intro m hm ht
    show (match fs.lookup "message" with
      | some m => if truthy m = true then m else J.str (dumps (J.obj fs))
      | none => J.str (dumps (J.obj fs))) = J.str (dumps (J.obj fs))
    rw [hm]
    show (if truthy m = true then m else J.str (dumps (J.obj fs))) = J.str (dumps (J.obj fs))
    rw [if_neg (by rw [ht]; exact Bool.false_ne_true)]

/-- C3 witness: a record with a string error in `call` and another in
`setup` yields exactly the `call` error, as-is. -/
theorem C3_error_extraction_witness :
    extractError sampleCallSetup = some (J.str "AssertionError: bad value") :=
  (C3_error_extraction sampleCallSetup "" []).1
    (J.str "AssertionError: bad value") rfl (by decide)

/-- C10 counterexample: the claim restricts the extracted error to `none`
or a non-empty string, but a dict `longrepr` whose `message` value is
truthy and not a string is returned unchanged: on a record whose `call`
phase carries `longrepr = {"message": 5}` extraction yields the number
`5`, which is neither `none` nor a string. -/
theorem C10_counterexample :
    extractError sampleMsgNum = some (J.num 5) ∧
    ¬ (extractError sampleMsgNum = none ∨
        ∃ s, extractError sampleMsgNum = some (J.str s) ∧ s ≠ "") := by
  have h : extractError sampleMsgNum = some (J.num 5) := rfl
  refine ⟨h, ?_⟩
  intro hc
  cases hc with
  | inl h0 =>
      rw [h] at h0
      exact Option.noConfusion h0
  | inr h1 =>
      obtain ⟨s, hs, _⟩ := h1
      rw [h] at hs
      exact J.noConfusion (Option.some.inj hs)

/-- C10 (amended): for every raw test record the extracted error is
either `none` or a truthy value — in particular never the empty string;
when a structured error mapping carries a `message` field whose value is
empty or otherwise falsy, extraction returns the serialization of the
whole mapping rather than that empty message; the result is a non-empty
string except that a truthy non-string `message` value is returned
unchanged (cf. the counterexample).  The last conjunct wires the
canonical `error` field to the extraction. -/
theorem C10_amended_error_invariant (t : RawTest) (fs : List (String × J)) :
    (extractError t = none ∨ ∃ v, extractError t = some v ∧ truthy v = true) ∧
    extractError t ≠ some (J.str "") ∧
    (∀ m, fs.lookup "message" = some m → truthy m = false →
      extractLongrepr (J.obj fs) = J.str (dumps (J.obj fs))) ∧
    (normalizeTest t).error = extractError t := by
  have hmain := firstTruthyLongrepr_none_or_truthy [t.call, t.setup, t.teardown]
  refine ⟨hmain, ?_, ?_, rfl⟩
  · intro hc
    cases hmain with
    | inl h0 =>
        rw [show extractError t = firstTruthyLongrepr [t.call, t.setup, t.teardown] from rfl, h0] at hc
        exact Option.noConfusion hc
    | inr h1 =>
        obtain ⟨v, hv, htv⟩ := h1
        rw [show extractError t = firstTruthyLongrepr [t.call, t.setup, t.teardown] from rfl, hv] at hc
        have hveq : v = J.str "" := Option.some.inj hc
        rw [hveq] at htv
        simp [truthy] at htv
  · intro m hm ht
    show (match fs.lookup "message" with
      | some m => if truthy m = true then m else J.str (dumps (J.obj fs))
      | none => J.str (dumps (J.obj fs))) = J.str (dumps (J.obj fs))
    rw [hm]
    show (if truthy m = true then m else J.str (dumps (J.obj fs))) = J.str (dumps (J.obj fs))
    rw [if_neg (by rw [ht]; exact Bool.false_ne_true)]

/-- C10 witness: the amended theorem applied at a mapping whose `message`
is the empty string — extraction returns the serialized mapping — and at
a concrete record for the `error`-field wiring. -/
theorem C10_error_invariant_witness :
    extractLongrepr (J.obj [("message", J.str "")]) =
      J.str (dumps (J.obj [("message", J.str "")])) ∧
    (normalizeTest sampleCallSetup).error = extractError sampleCallSetup :=
  ⟨(C10_amended_error_invariant sampleCallSetup [("message", J.str "")]).2.2.1
      (J.str "") rfl rfl,
   (C10_amended_error_invariant sampleCallSetup [("message", J.str "")]).2.2.2⟩

/-- C6 (confirmed): the transient invocation-unit script does not exist
after `generate_report` finishes, on every exit path — subprocess exit 0,
non-zero exit (the raised `RuntimeError`), or an exception thrown during
the invocation — because the `finally` block deletes it. -/
theorem C6_script_cleanup (projectRoot : String) (dataJsonPath : Option String)
    (sub : SubprocOutcome) (fs0 : List String) :
    scriptPath projectRoot ∉ (generateReport projectRoot dataJsonPath sub fs0).2 := by
  intro hc
  have hm :
      (generateReport projectRoot dataJsonPath sub fs0).2 =
        removePath (scriptPath projectRoot)
          (scriptPath projectRoot ::
            dataJsonPath.getD (defaultDataJsonPath projectRoot) :: fs0) := rfl
  rw [hm, removePath, List.mem_filter] at hc
  exact absurd hc.2 (by simp)

/-- C7 (confirmed): `generate_report` raises its rendering error exactly
when the subprocess exits non-zero, with a message embedding the captured
error stream (`result.stderr or result.stdout`: the output stream is used
when the error stream is empty); on exit status 0 it returns normally,
and a completed subprocess never yields a propagated exception. -/
theorem C7_render_error_iff (projectRoot : String) (dataJsonPath : Option String)
    (rc : ℤ) (stdout stderr m : String) (fs0 : List String) :
    (rc = 0 →
      (generateReport projectRoot dataJsonPath
        (SubprocOutcome.completed rc stdout stderr) fs0).1 = ReportResult.ok) ∧
    (rc ≠ 0 →
      (generateReport projectRoot dataJsonPath
        (SubprocOutcome.completed rc stdout stderr) fs0).1 =
        ReportResult.renderError
          ("Report generation failed:\n" ++ (if stderr = "" then stdout else stderr))) ∧
    ((generateReport projectRoot dataJsonPath
        (SubprocOutcome.completed rc stdout stderr) fs0).1 = ReportResult.ok → rc = 0) ∧
    ((generateReport projectRoot dataJsonPath
        (SubprocOutcome.completed rc stdout stderr) fs0).1 ≠ ReportResult.propagated m) := by
  have he : (generateReport projectRoot dataJsonPath
      (SubprocOutcome.completed rc stdout stderr) fs0).1 =
      if rc ≠ 0 then
        ReportResult.renderError
          ("Report generation failed:\n" ++ (if stderr = "" then stdout else stderr))
      else ReportResult.ok := rfl
  by_cases h : rc = 0
  · have hz : ¬ rc ≠ 0 := fun hc => hc h
    refine ⟨fun _ => by rw [he, if_neg hz], fun hne => absurd h hne, fun _ => h, ?_⟩
    rw [he, if_neg hz]
    exact fun hc => ReportResult.noConfusion hc
  · refine ⟨fun h0 => absurd h0 h, fun _ => by rw [he, if_pos h], ?_, ?_⟩
    · intro hok
      rw [he, if_pos h] at hok
      exact absurd hok (fun hc => ReportResult.noConfusion hc)
    · rw [he, if_pos h]
      exact fun hc => ReportResult.noConfusion hc

/-- C7 witness: the theorem applied at exit status 1 with an empty error
stream (the message falls back to the output stream) and at exit
status 0. -/
theorem C7_render_error_witness :
    (generateReport "proj" none (SubprocOutcome.completed 1 "out" "") []).1 =
      ReportResult.renderError "Report generation failed:\nout" ∧
    (generateReport "proj" none (SubprocOutcome.completed 0 "out" "err") []).1 =
      ReportResult.ok :=
  ⟨(C7_render_error_iff "proj" none 1 "out" "" "m" []).2.1 (by decide),
   (C7_render_error_iff "proj" none 0 "out" "err" "m" []).1 rfl⟩

/-- C8 counterexample: the claim describes the monorepo root as found by
an upward walk from the bridge's location (then from the current working
directory); the code performs no walk from the bridge's location — it
checks only the single static anchor three parents above `bridge.py`.
With the sentinel root, holding the entry asset in its `dist`, two
levels above `bridge.py`, no bundled dist, and an unrelated working
directory, the claim's procedure (`getDistRootClaimed`, modelled from
the claim's words) resolves that root's `dist` while `_get_dist_root`
fails with the renderer-not-found error. -/
theorem C8_counterexample :
    getDistRoot sampleAnchorMissFs ["bridge.py", "pkg", "python", "repo"] ["elsewhere"] =
      DistRootResult.notFound distRootErrMsg ∧
    getDistRootClaimed sampleAnchorMissFs ["bridge.py", "pkg", "python", "repo"] ["elsewhere"] =
      DistRootResult.found ["dist", "python", "repo"] ∧
    isValidRoot sampleAnchorMissFs ["python", "repo"] = true ∧
    htmlGeneratorAt sampleAnchorMissFs ["dist", "python", "repo"] = true :=
  ⟨rfl, rfl, rfl, rfl⟩

/-- C8 (amended): renderer location tries the bundled directory
alongside the bridge code first, then the `dist` of the monorepo root
found by `_find_monorepo_root` — which performs no upward walk from the
bridge's location: it checks only the single static anchor three parents
above `bridge.py`, and only when that anchor does not declare the
sentinel package name does it walk upward from the current working
directory, up to six directories, each accepted only when its
`package.json` declares the sentinel name.  The first candidate
containing the entry asset is returned, and otherwise resolution fails
deterministically with the corrupt-install/missing-build remediation
message. -/
theorem C8_renderer_locator (fs : FileSys) (bridgeFile cwd r : List String) :
    (htmlGeneratorAt fs (childPath (parentDir bridgeFile) "_bundled_dist") = true →
      getDistRoot fs bridgeFile cwd =
        DistRootResult.found (childPath (parentDir bridgeFile) "_bundled_dist")) ∧
    (htmlGeneratorAt fs (childPath (parentDir bridgeFile) "_bundled_dist") = false →
      findMonorepoRoot fs bridgeFile cwd = some r →
      htmlGeneratorAt fs (childPath r "dist") = true →
      getDistRoot fs bridgeFile cwd = DistRootResult.found (childPath r "dist")) ∧
    (htmlGeneratorAt fs (childPath (parentDir bridgeFile) "_bundled_dist") = false →
      findMonorepoRoot fs bridgeFile cwd = some r →
      htmlGeneratorAt fs (childPath r "dist") = false →
      getDistRoot fs bridgeFile cwd = DistRootResult.notFound distRootErrMsg) ∧
    (htmlGeneratorAt fs (childPath (parentDir bridgeFile) "_bundled_dist") = false →
      findMonorepoRoot fs bridgeFile cwd = none →
      getDistRoot fs bridgeFile cwd = DistRootResult.notFound distRootErrMsg) ∧
    (findMonorepoRoot fs bridgeFile cwd = some r → isValidRoot fs r = true) ∧
    (isValidRoot fs (parentDir (parentDir (parentDir bridgeFile))) = true →
      findMonorepoRoot fs bridgeFile cwd =
        some (parentDir (parentDir (parentDir bridgeFile)))) ∧
    (isValidRoot fs (parentDir (parentDir (parentDir bridgeFile))) = false →
      findMonorepoRoot fs bridgeFile cwd = walkUp fs 6 cwd) := by
  have hg : getDistRoot fs bridgeFile cwd =
      if htmlGeneratorAt fs (childPath (parentDir bridgeFile) "_bundled_dist") = true then
        DistRootResult.found (childPath (parentDir bridgeFile) "_bundled_dist")
      else
        match findMonorepoRoot fs bridgeFile cwd with
        | some monorepo =>
            if htmlGeneratorAt fs (childPath monorepo "dist") = true then
              DistRootResult.found (childPath monorepo "dist")
            else DistRootResult.notFound distRootErrMsg
        | none => DistRootResult.notFound distRootErrMsg := rfl
  have hf : findMonorepoRoot fs bridgeFile cwd =
      if isValidRoot fs (parentDir (parentDir (parentDir bridgeFile))) = true then
        some (parentDir (parentDir (parentDir bridgeFile)))
      else walkUp fs 6 cwd := rfl
  refine ⟨?_, ?_, ?_, ?_, ?_, ?_, ?_⟩
  · intro h
    rw [hg, if_pos h]
  · intro hb hm ha
    rw [hg, if_neg (by rw [hb]; exact Bool.false_ne_true), hm]
    show (if htmlGeneratorAt fs (childPath r "dist") = true then
        DistRootResult.found (childPath r "dist")
      else DistRootResult.notFound distRootErrMsg) = DistRootResult.found (childPath r "dist")
    rw [if_pos ha]
  · intro hb hm ha
    rw [hg, if_neg (by rw [hb]; exact Bool.false_ne_true), hm]
    show (if htmlGeneratorAt fs (childPath r "dist") = true then
        DistRootResult.found (childPath r "dist")
      else DistRootResult.notFound distRootErrMsg) = DistRootResult.notFound distRootErrMsg
    rw [if_neg (by rw [ha]; exact Bool.false_ne_true)]
  · intro hb hm
    rw [hg, if_neg (by rw [hb]; exact Bool.false_ne_true), hm]
  · intro hm
    rw [hf] at hm
    by_cases hv : isValidRoot fs (parentDir (parentDir (parentDir bridgeFile))) = true
    · rw [if_pos hv] at hm
      cases hm
      exact hv
    · rw [if_neg hv] at hm
      exact walkUp_isValidRoot fs 6 cwd r hm
  · intro hv
    rw [hf, if_pos hv]
  · intro hv
    rw [hf, if_neg (by rw [hv]; exact Bool.false_ne_true)]

/-- C8 witness: on a filesystem carrying only the bundled entry asset,
resolution returns the bundled directory. -/
theorem C8_renderer_locator_witness :
    getDistRoot sampleBundledFs ["bridge.py", "pkg", "python", "repo"] [] =
      DistRootResult.found ["_bundled_dist", "pkg", "python", "repo"] :=
  (C8_renderer_locator sampleBundledFs ["bridge.py", "pkg", "python", "repo"] [] []).1
    (by decide)

/-- C9 (confirmed): the session-finish hook never propagates: it always
returns a printed log (first conjunct); a missing raw report file yields
the non-fatal notice; an exception from bridge construction or from
conversion/rendering is caught and reported as a printed failure line;
on success it prints the success line.  In every case the test session's
own exit semantics are untouched. -/
theorem C9_hook_isolation (env : HookEnv) (outputPath e : String) :
    (∃ logs, sessionFinish env outputPath = Except.ok logs) ∧
    (env.reportExists = false → sessionFinish env outputPath = Except.ok [skipNotice]) ∧
    (env.reportExists = true → env.bridgeInit = Except.error e →
      sessionFinish env outputPath = Except.ok [failLine e]) ∧
    (env.reportExists = true → env.bridgeInit = Except.ok () →
      env.generate = Except.error e →
      sessionFinish env outputPath = Except.ok [failLine e]) ∧
    (env.reportExists = true → env.bridgeInit = Except.ok () →
      env.generate = Except.ok () →
      sessionFinish env outputPath = Except.ok [successLine outputPath]) := by
  obtain ⟨re, bi, ge⟩ := env
  cases re
  · exact ⟨⟨[skipNotice], rfl⟩, fun _ => rfl,
      fun h => absurd h Bool.false_ne_true,
      fun h => absurd h Bool.false_ne_true,
      fun h => absurd h Bool.false_ne_true⟩
  · cases bi with
    | error eb =>
        refine ⟨⟨[failLine eb], rfl⟩, fun h => Bool.noConfusion h, ?_, ?_, ?_⟩
        · intro _ hbe
          have heq : eb = e := by injection hbe
          subst heq
          rfl
        · intro _ hok
          exact absurd hok (fun hc => Except.noConfusion hc)
        · intro _ hok
          exact absurd hok (fun hc => Except.noConfusion hc)
    | ok u =>
        cases u
        cases ge with
        | error eg =>
            refine ⟨⟨[failLine eg], rfl⟩, fun h => Bool.noConfusion h, ?_, ?_, ?_⟩
            · intro _ hbe
              exact absurd hbe (fun hc => Except.noConfusion hc)
            · intro _ _ hge
              have heq : eg = e := by injection hge
              subst heq
              rfl
            · intro _ _ hok
              exact absurd hok (fun hc => Except.noConfusion hc)
        | ok u2 =>
            cases u2
            refine ⟨⟨[successLine outputPath], rfl⟩, fun h => Bool.noConfusion h, ?_, ?_, ?_⟩
            · intro _ hbe
              exact absurd hbe (fun hc => Except.noConfusion hc)
            · intro _ _ hge
              exact absurd hge (fun hc => Except.noConfusion hc)
            · intro _ _ _
              rfl

/-- C9 witness: the theorem applied where the report file exists and
bridge construction raises — the hook still returns, printing the
failure line. -/
theorem C9_hook_isolation_witness :
    sessionFinish
      { reportExists := true, bridgeInit := Except.error "boom", generate := Except.ok () }
      "out.html" = Except.ok [failLine "boom"] :=
  (C9_hook_isolation
    { reportExists := true, bridgeInit := Except.error "boom", generate := Except.ok () }
    "out.html" "boom").2.2.1 rfl rfl
